import Mathlib

/-!
Shallow embedding of the `benchmark-datetime` repository.

The repository consists of four Python files
(`src/benchmark_datetime/benchmark.py`, `src/benchmark/test_parse.py`,
`src/benchmark/test_manipulate.py`, `src/benchmark/test_dump.py`).  Each file
builds module-level dict literals mapping a library identifier to a callable
(and, for some operations, a captured argument), and each test body

  * invokes every registered library's callable on the shared input,
  * asserts that a per-operation projection (day-of-month, hour-of-day,
    weekday number, total seconds, string length) yields a single-element set,
  * hands one library's callable to the external timing harness.

The embedding below models UTC instants as microseconds since the Unix epoch
(the resolution of Python aware datetimes), durations as their total
microsecond count, and the per-file tables as association lists.  External
library calls (arrow, dateutil, pendulum, python stdlib, udatetime, pydantic,
pandas) are modelled by their documented semantics on the inputs the
repository actually uses:

  * all the UTC instants in play carry fixed-offset timezones, so the
    shift-by-duration operations of all four registered libraries are exact
    addition of the duration's total microseconds;
  * `arrow.Arrow.shift(weekday=5)` and `dateutil` `relativedelta(weekday=SA(+1))`
    move forward to Saturday and stay put when the start already is one,
    while `pendulum.DateTime.next(SATURDAY)` starts searching at the start of
    the *following* day (and resets the time to midnight);
  * the RFC-3339 / ISO-8601 parsers of all registered libraries retain the
    parsed local civil fields together with the UTC offset (none of them
    renormalises the instant to UTC), so the `.day` accessor reads the day
    digits of the input literal.
-/

/-! ## Time model -/

/-- Microseconds per day. -/
def usPerDay : Int := 86400000000

/-- A UTC instant: microseconds since the Unix epoch.  Python aware datetimes
have microsecond resolution, so this is lossless. -/
abbrev Instant := Int

/-- Days since 1970-01-01 of the civil day containing the instant
(`Int` division is Euclidean division, which for the positive divisor
coincides with Python's floor division). -/
def epochDay (t : Instant) : Int := t / usPerDay

/-- Hour of day of a UTC instant, as `datetime.hour` reads it. -/
def hourOfDay (t : Instant) : Int := (t / 3600000000) % 24

/-- Python's `date.weekday()` of an epoch-day number: Monday is `0`;
1970-01-01 was a Thursday (`3`). -/
def pyWeekday (d : Int) : Int := (d + 3) % 7

/-- Civil `(year, month, day)` from a days-since-epoch count, the standard
Gregorian conversion used by all the date libraries.  All the intermediate
quantities after the era split are nonnegative, so `Int` division matches
the reference algorithm. -/
def civilFromDays (z : Int) : Int × Int × Int :=
  let z1 := z + 719468
  let era := z1 / 146097
  let doe := z1 - era * 146097
  let yoe := (doe - doe / 1460 + doe / 36524 - doe / 146096) / 365
  let y := yoe + era * 400
  let doy := doe - (365 * yoe + yoe / 4 - yoe / 100)
  let mp := (5 * doy + 2) / 153
  let d := doy - (153 * mp + 2) / 5 + 1
  let m := mp + (if mp < 10 then 3 else -9)
  (if m ≤ 2 then y + 1 else y, m, d)

/-- `datetime.day` of a UTC instant: the day-of-month of its civil day. -/
def dayOfMonth (t : Instant) : Int := (civilFromDays (epochDay t)).2.2

/-! ## The equivalence check

Every test body contains an assertion of the literal shape

  `assert len({proj(dt) for dt in datetimes}) == 1`

i.e. the set of projected values, built from the list of per-library results,
must be a singleton. -/

/-- The assertion expression `len({proj(dt) for dt in datetimes}) == 1`:
project every result, form the set (`dedup`), and compare its size with 1. -/
def equivCheck {α β : Type} [DecidableEq β] (proj : α → β) (results : List α) : Bool :=
  (results.map proj).dedup.length == 1

/-! ## Durations

`timedelta_kwargs` in `benchmark.py` / `test_manipulate.py` draws
`days`, `hours`, `minutes` and `microseconds`, each from `400..500`;
`timedelta_kwargs_negative` draws fresh values and negates them. -/

/-- The four keyword components handed to `shift` / `relativedelta` /
`add` / `timedelta`. -/
structure TimedeltaKwargs where
  days : Int
  hours : Int
  minutes : Int
  microseconds : Int
deriving DecidableEq

/-- Total microseconds of a duration; all four components are fixed-length
units, so every registered library treats the duration as this exact span. -/
def timedeltaUs (k : TimedeltaKwargs) : Int :=
  k.days * usPerDay + k.hours * 3600000000 + k.minutes * 60000000 + k.microseconds

/-- The equal-magnitude negative duration. -/
def negKwargs (k : TimedeltaKwargs) : TimedeltaKwargs :=
  ⟨-k.days, -k.hours, -k.minutes, -k.microseconds⟩

/-- Each component of `timedelta_kwargs` is drawn by
`fake.pyint(min_value=400, max_value=500)`. -/
abbrev kwargsInRange (k : TimedeltaKwargs) : Prop :=
  400 ≤ k.days ∧ k.days ≤ 500 ∧ 400 ≤ k.hours ∧ k.hours ≤ 500 ∧
    400 ≤ k.minutes ∧ k.minutes ≤ 500 ∧ 400 ≤ k.microseconds ∧ k.microseconds ≤ 500

/-! ## Shift-by-duration operations

On a fixed-offset (UTC) instant, with only fixed-length duration units in
play, `arrow.Arrow.shift`, `dateutil`'s `relativedelta` addition,
`pendulum.DateTime.add` and stdlib `datetime + timedelta` all perform exact
addition of the total microsecond span. -/

/-- `lambda dt: dt.shift(**timedelta_kwargs)` (arrow). -/
def arrow_shift (k : TimedeltaKwargs) (dt : Instant) : Instant := dt + timedeltaUs k

/-- `lambda dt: dt + relativedelta(**timedelta_kwargs)` (dateutil). -/
def dateutil_add_relativedelta (k : TimedeltaKwargs) (dt : Instant) : Instant :=
  dt + timedeltaUs k

/-- `lambda dt: dt.add(**timedelta_kwargs)` (pendulum). -/
def pendulum_add (k : TimedeltaKwargs) (dt : Instant) : Instant := dt + timedeltaUs k

/-- `lambda dt: dt + datetime.timedelta(**timedelta_kwargs)` (python). -/
def python_add_timedelta (k : TimedeltaKwargs) (dt : Instant) : Instant :=
  dt + timedeltaUs k

/-- The callables of `libraries_shift_forward`, keyed by library id and
closed over the drawn `timedelta_kwargs`. -/
def shiftForwardFuncs (k : TimedeltaKwargs) : List (String × (Instant → Instant)) :=
  [("arrow", arrow_shift k),
   ("dateutil", dateutil_add_relativedelta k),
   ("pendulum", pendulum_add k),
   ("python", python_add_timedelta k)]

/-- The callables of `libraries_shift_backward`, keyed by library id and
closed over the drawn `timedelta_kwargs_negative`. -/
def shiftBackwardFuncs (kn : TimedeltaKwargs) : List (String × (Instant → Instant)) :=
  [("arrow", arrow_shift kn),
   ("dateutil", dateutil_add_relativedelta kn),
   ("pendulum", pendulum_add kn),
   ("python", python_add_timedelta kn)]

/-! ## Find-next-Saturday operations (`SATURDAY = 5`) -/

/-- `arrow.Arrow.shift(weekday=5)`: arrow delegates to dateutil's plain
`weekday(5)`, which moves forward to the requested weekday and stays on the
same day when the start already is a Saturday; the time of day is kept. -/
def arrow_shift_weekday_saturday (dt : Instant) : Instant :=
  dt + ((5 - pyWeekday (epochDay dt)) % 7) * usPerDay

/-- `lambda dt: dt + relativedelta(weekday=SA(+1))`: the first Saturday on or
after the date (the start itself when it is a Saturday); time kept. -/
def dateutil_next_saturday (dt : Instant) : Instant :=
  dt + ((5 - pyWeekday (epochDay dt)) % 7) * usPerDay

/-- The day-search loop inside `pendulum.DateTime.next`: starting from a given
epoch day, step one day at a time until the weekday is Saturday. Pendulum's
loop runs at most 7 iterations, modelled here by explicit fuel. -/
def nextWeekdaySearch (d : Int) : Nat → Int
  | 0 => d
  | fuel + 1 => if pyWeekday d == 5 then d else nextWeekdaySearch (d + 1) fuel

/-- `lambda dt: dt.next(pendulum.SATURDAY)`: pendulum truncates to the start
of day, steps to the *following* day and searches forward for a Saturday, so
a Saturday start moves a full week ahead; the result is at midnight. -/
def pendulum_next_saturday (dt : Instant) : Instant :=
  nextWeekdaySearch (epochDay dt + 1) 7 * usPerDay

/-- `lambda dt: dt + datetime.timedelta((7 + SATURDAY - dt.weekday()) % 7)`. -/
def python_next_saturday (dt : Instant) : Instant :=
  dt + ((7 + 5 - pyWeekday (epochDay dt)) % 7) * usPerDay

/-! ## RFC-3339 / ISO-8601 datetime parsing

All six parsing callables registered for the string-parsing operations
(`arrow.get`, `pendulum.parse`, `datetime.datetime.fromisoformat`,
`udatetime.from_string`, pydantic's `AwareDatetime` validator and
`pandas.Timestamp`) accept the RFC-3339 timestamps the repository feeds
them, and every one of them keeps the parsed local civil fields paired with
the fixed UTC offset — none of them renormalises the fields to UTC.  The
common behaviour is modelled by one executable field parser. -/

/-- A parsed aware datetime: the local civil fields exactly as written in the
input, plus the UTC offset in minutes. -/
structure ParsedDT where
  year : Int
  month : Int
  day : Int
  hour : Int
  minute : Int
  second : Int
  microsecond : Int
  offsetMinutes : Int
deriving DecidableEq

/-- Numeric value of a decimal digit character. -/
def digitVal (c : Char) : Option Int :=
  if c.isDigit then some ((c.toNat : Int) - 48) else none

/-- Read exactly two decimal digits. -/
def parse2 (cs : List Char) : Option (Int × List Char) :=
  match cs with
  | c1 :: c2 :: rest => do
    let d1 ← digitVal c1
    let d2 ← digitVal c2
    pure (d1 * 10 + d2, rest)
  | _ => none

/-- Read exactly four decimal digits. -/
def parse4 (cs : List Char) : Option (Int × List Char) :=
  match cs with
  | c1 :: c2 :: c3 :: c4 :: rest => do
    let d1 ← digitVal c1
    let d2 ← digitVal c2
    let d3 ← digitVal c3
    let d4 ← digitVal c4
    pure (((d1 * 10 + d2) * 10 + d3) * 10 + d4, rest)
  | _ => none

/-- Require one specific character. -/
def expectChar (c : Char) (cs : List Char) : Option (List Char) :=
  match cs with
  | c0 :: rest => if c0 = c then some rest else none
  | [] => none

/-- Microseconds encoded by a fraction-digit string (first six digits,
right-padded with zeros). -/
def fracToMicros (ds : List Char) : Int :=
  (ds.take 6 ++ List.replicate (6 - ds.length) '0').foldl
    (fun acc c => acc * 10 + ((c.toNat : Int) - 48)) 0

/-- Optional fractional-seconds part. -/
def parseFrac (cs : List Char) : Int × List Char :=
  match cs with
  | '.' :: rest => (fracToMicros (rest.takeWhile Char.isDigit), rest.dropWhile Char.isDigit)
  | _ => (0, cs)

/-- UTC-offset suffix: `Z`/`z` or `±HH:MM`, in minutes. -/
def parseOffset (cs : List Char) : Option (Int × List Char) :=
  match cs with
  | 'Z' :: rest => some (0, rest)
  | 'z' :: rest => some (0, rest)
  | '+' :: rest => do
    let (h, rest) ← parse2 rest
    let rest ← expectChar ':' rest
    let (m, rest) ← parse2 rest
    pure (h * 60 + m, rest)
  | '-' :: rest => do
    let (h, rest) ← parse2 rest
    let rest ← expectChar ':' rest
    let (m, rest) ← parse2 rest
    pure (-(h * 60 + m), rest)
  | _ => none

/-- Parse an RFC-3339 date-time literal `YYYY-MM-DDTHH:MM:SS[.ffffff](Z|±HH:MM)`
into its civil fields, validating the field ranges. -/
def rfc3339Parse (s : String) : Option ParsedDT := do
  let cs := s.toList
  let (y, cs) ← parse4 cs
  let cs ← expectChar '-' cs
  let (mo, cs) ← parse2 cs
  let cs ← expectChar '-' cs
  let (d, cs) ← parse2 cs
  let cs ← expectChar 'T' cs
  let (h, cs) ← parse2 cs
  let cs ← expectChar ':' cs
  let (mi, cs) ← parse2 cs
  let cs ← expectChar ':' cs
  let (sec, cs) ← parse2 cs
  let (us, cs) := parseFrac cs
  let (off, cs) ← parseOffset cs
  if cs = [] ∧ 1 ≤ mo ∧ mo ≤ 12 ∧ 1 ≤ d ∧ d ≤ 31 ∧ h ≤ 23 ∧ mi ≤ 59 ∧ sec ≤ 59 then
    pure ⟨y, mo, d, h, mi, sec, us, off⟩
  else
    none

/-- `arrow.get` on an ISO-8601 / RFC-3339 string: keeps the literal's civil
fields and offset. -/
def arrow_get (s : String) : Option ParsedDT := rfc3339Parse s

/-- `pendulum.parse`: keeps the literal's civil fields and offset. -/
def pendulum_parse (s : String) : Option ParsedDT := rfc3339Parse s

/-- `datetime.datetime.fromisoformat`: keeps the literal's civil fields and
offset. -/
def python_fromisoformat (s : String) : Option ParsedDT := rfc3339Parse s

/-- `udatetime.from_string`: keeps the literal's civil fields and offset. -/
def udatetime_from_string (s : String) : Option ParsedDT := rfc3339Parse s

/-- `TypeAdapter(pydantic.AwareDatetime).validate_python` on a string: keeps
the literal's civil fields and offset. -/
def pydantic_validate_aware (s : String) : Option ParsedDT := rfc3339Parse s

/-- `dateutil.parser.isoparse`: keeps the literal's civil fields and offset
(registered only in `test_parse.py`). -/
def dateutil_isoparse (s : String) : Option ParsedDT := rfc3339Parse s

/-- `lambda dt: pd.Timestamp(dt).to_pydatetime()`: keeps the literal's civil
fields and offset (registered only in `test_parse.py`). -/
def pandas_timestamp_parse (s : String) : Option ParsedDT := rfc3339Parse s

/-- The day-of-month projection applied inside the parse tests:
`{dt.day for dt in datetimes}`. -/
def parsedDay (r : Option ParsedDT) : Option Int := r.map ParsedDT.day

/-! ## Parse-from-unix-timestamp operations

`fake.unix_time()` yields integral epoch seconds; `arrow.get`,
`pendulum.from_timestamp`, `datetime.datetime.utcfromtimestamp`,
`udatetime.utcfromtimestamp` and pydantic's validator all interpret the
number as seconds since the Unix epoch (UTC). -/

/-- `arrow.get` on an epoch-second count. -/
def arrow_get_timestamp (s : Int) : Instant := s * 1000000

/-- `pendulum.from_timestamp`. -/
def pendulum_from_timestamp (s : Int) : Instant := s * 1000000

/-- `datetime.datetime.utcfromtimestamp`. -/
def python_utcfromtimestamp (s : Int) : Instant := s * 1000000

/-- `udatetime.utcfromtimestamp`. -/
def udatetime_utcfromtimestamp (s : Int) : Instant := s * 1000000

/-- `TypeAdapter(pydantic.AwareDatetime).validate_python` on a number. -/
def pydantic_validate_timestamp (s : Int) : Instant := s * 1000000

/-! ## Now operations

The `now` callables read an ambient clock; the embedding passes the clock
reading explicitly, so each callable is a function of the instant the clock
shows at call time. -/

/-- `arrow.utcnow`. -/
def arrow_utcnow (now : Instant) : Instant := now

/-- `partial(datetime.datetime.now, tz.UTC)` (dateutil's `tz.UTC`). -/
def dateutil_datetime_now_utc (now : Instant) : Instant := now

/-- `partial(pendulum.now, pendulum.UTC)`. -/
def pendulum_now_utc (now : Instant) : Instant := now

/-- `partial(datetime.datetime.now, datetime.UTC)`. -/
def python_datetime_now_utc (now : Instant) : Instant := now

/-- `udatetime.utcnow`. -/
def udatetime_utcnow (now : Instant) : Instant := now

/-- `arrow.now` (local clock). -/
def arrow_now (localNow : Instant) : Instant := localNow

/-- `pendulum.now` (local clock). -/
def pendulum_now (localNow : Instant) : Instant := localNow

/-- `datetime.datetime.now` (local clock, naive). -/
def python_datetime_now (localNow : Instant) : Instant := localNow

/-- `udatetime.now` (local clock). -/
def udatetime_now (localNow : Instant) : Instant := localNow

/-! ## Weekday-number operations -/

/-- ISO weekday of a UTC instant: Monday `1` .. Sunday `7`. -/
def isoWeekday (t : Instant) : Int := pyWeekday (epochDay t) + 1

/-- `lambda dt: dt.isoweekday()` (arrow). -/
def arrow_isoweekday (dt : Instant) : Int := isoWeekday dt

/-- `lambda td: td.day_of_week` (pendulum 2 numbering: Sunday `0` ..
Saturday `6`). -/
def pendulum_day_of_week (dt : Instant) : Int := (pyWeekday (epochDay dt) + 1) % 7

/-- `lambda td: td.isoweekday()` (python). -/
def python_isoweekday (dt : Instant) : Int := isoWeekday dt

/-- `lambda td: td.isoweekday()` (udatetime). -/
def udatetime_isoweekday (dt : Instant) : Int := isoWeekday dt

/-! ## Duration-to-seconds operations -/

/-- `td.total_seconds()` of a span held in microseconds: both registered
libraries return the span's exact length in seconds; scaling by the constant
10^-6 is injective, so the value is represented by the exact microsecond
count and the set-cardinality assert is unchanged. -/
def total_seconds_value (td : Int) : Int := td

/-- `pendulum.duration(**timedelta_kwargs)`: the drawn span, in
microseconds. -/
def pendulum_duration (k : TimedeltaKwargs) : Int := timedeltaUs k

/-- `datetime.timedelta(**timedelta_kwargs)`: the drawn span, in
microseconds. -/
def python_timedelta_value (k : TimedeltaKwargs) : Int := timedeltaUs k

/-! ## Format-to-isoformat-string operations

`datetime.isoformat()` of an aware UTC instant renders
`YYYY-MM-DDTHH:MM:SS[.ffffff]+00:00` (the microsecond part omitted when
zero); arrow and pendulum delegate to the same rendering, and
`udatetime.to_string` emits the same RFC-3339 shape.  The rendering is
shared below; only the identity of the callables across files matters to
the claims. -/

/-- Decimal rendering left-padded with zeros to the given width (all the
rendered fields are nonnegative). -/
def padNum (w : Nat) (n : Int) : String :=
  let s := toString n
  String.mk (List.replicate (w - s.length) '0') ++ s

/-- `dt.isoformat()` on an aware UTC `datetime`. -/
def python_isoformat (t : Instant) : String :=
  let d := epochDay t
  let us := t - d * usPerDay
  let c := civilFromDays d
  let sec := us / 1000000
  let micro := us % 1000000
  padNum 4 c.1 ++ "-" ++ padNum 2 c.2.1 ++ "-" ++ padNum 2 c.2.2 ++ "T" ++
    padNum 2 (sec / 3600) ++ ":" ++ padNum 2 (sec % 3600 / 60) ++ ":" ++
    padNum 2 (sec % 60) ++
    (if micro == 0 then "" else "." ++ padNum 6 micro) ++ "+00:00"

/-- `lambda dt: dt.isoformat()` (arrow delegates to the datetime
rendering). -/
def arrow_isoformat (t : Instant) : String := python_isoformat t

/-- `lambda dt: dt.isoformat()` (pendulum delegates to the datetime
rendering). -/
def pendulum_isoformat (t : Instant) : String := python_isoformat t

/-- `udatetime.to_string`: RFC-3339 rendering of a UTC instant. -/
def udatetime_to_string (t : Instant) : String := python_isoformat t

/-! ## Python dict-literal semantics

Every registry in the repository is a module-level Python dict literal.  A
dict literal is built by inserting the written pairs left to right: a key
that is already present keeps its original position and has its value
overwritten; no error of any kind is raised for a duplicate key. -/

/-- Insert one key/value pair with Python dict semantics: overwrite in place
when the key exists, append otherwise. -/
def dictInsert {α : Type} (d : List (String × α)) (key : String) (v : α) :
    List (String × α) :=
  if d.any (fun p => p.1 == key) then
    d.map (fun p => if p.1 == key then (key, v) else p)
  else
    d ++ [(key, v)]

/-- Build a dict from the pairs written in a dict literal, left to right. -/
def dictOfList {α : Type} (pairs : List (String × α)) : List (String × α) :=
  pairs.foldl (fun d p => dictInsert d p.1 p.2) []

/-- `d[key]` as a total lookup. -/
def dictLookup {α : Type} (d : List (String × α)) (key : String) : Option α :=
  (d.find? (fun p => p.1 == key)).map Prod.snd

/-! ## Assertion outcomes

Each test's `assert` either passes or raises `AssertionError`; the payload
attached to the error is exactly the expression written after the comma in
the `assert` statement (nothing, a raw result list, a dict of raw results,
or a dict of string lengths).  No assert in the repository attaches a
mapping from library id to *projected* value. -/

/-- What a failing `assert` in this repository attaches, by shape. -/
inductive AssertPayload where
  /-- an `assert` with no message expression -/
  | bare : AssertPayload
  /-- `assert ..., datetimes` — the raw per-library result list -/
  | rawResults : List Instant → AssertPayload
  /-- `assert ..., providers_datetimes` — library id to raw result -/
  | rawMapping : List (String × Instant) → AssertPayload
  /-- `assert ..., {s: len(s) for s in iso_strings}` — string to length -/
  | stringLengthMapping : List (String × Nat) → AssertPayload
  /-- library id to projected value (what the spec describes; never built) -/
  | projectedMapping : List (String × Int) → AssertPayload
deriving DecidableEq

/-- `assert len({dt.hour for dt in datetimes}) == 1` in `test_now_utc`
(no message expression). -/
def test_now_utc_assert (datetimes : List Instant) : Except AssertPayload Unit :=
  if equivCheck hourOfDay datetimes then Except.ok () else Except.error AssertPayload.bare

/-- `assert len({dt.day for dt in datetimes}) == 1` in
`test_parse_utc_from_timestamp` (no message expression). -/
def test_parse_utc_from_timestamp_assert (datetimes : List Instant) :
    Except AssertPayload Unit :=
  if equivCheck dayOfMonth datetimes then Except.ok () else Except.error AssertPayload.bare

/-- `assert len({dt.day for dt in datetimes}) == 1, datetimes` in
`test_add_timedelta`. -/
def test_add_timedelta_assert (datetimes : List Instant) : Except AssertPayload Unit :=
  if equivCheck dayOfMonth datetimes then Except.ok ()
  else Except.error (AssertPayload.rawResults datetimes)

/-- `assert len({dt.day for dt in providers_datetimes.values()}) == 1,
providers_datetimes` in `test_substract_timedelta`. -/
def test_substract_timedelta_assert (providers : List (String × Instant)) :
    Except AssertPayload Unit :=
  if equivCheck dayOfMonth (providers.map Prod.snd) then Except.ok ()
  else Except.error (AssertPayload.rawMapping providers)

/-- `assert len({dt.hour for dt in datetimes}) == 1` in `test_now_local`
(no message expression). -/
def test_now_local_assert (datetimes : List Instant) : Except AssertPayload Unit :=
  if equivCheck hourOfDay datetimes then Except.ok () else Except.error AssertPayload.bare

/-- `assert len({dt.day for dt in datetimes}) == 1` in
`test_parse_utc_from_iso_8601` (no message expression). -/
def test_parse_utc_from_iso_8601_assert (datetimes : List (Option ParsedDT)) :
    Except AssertPayload Unit :=
  if equivCheck parsedDay datetimes then Except.ok () else Except.error AssertPayload.bare

/-- `assert len({dt.day for dt in datetimes}) == 1` in
`test_parse_utc_from_rfc_3339` (no message expression). -/
def test_parse_utc_from_rfc_3339_assert (datetimes : List (Option ParsedDT)) :
    Except AssertPayload Unit :=
  if equivCheck parsedDay datetimes then Except.ok () else Except.error AssertPayload.bare

/-- `assert len({dt.total_seconds() for dt in durations}) == 1` in
`test_parse_utc_from_iso_8601_duration` (no message expression); durations
held in microseconds. -/
def test_parse_utc_from_iso_8601_duration_assert (durations : List Int) :
    Except AssertPayload Unit :=
  if equivCheck total_seconds_value durations then Except.ok ()
  else Except.error AssertPayload.bare

/-- `assert len({func(arg) for func, arg in
libraries_timedelta_to_seconds.values()}) == 1` in `test_timedelta_to_seconds`
(no message expression); the set members already are the `total_seconds`
values. -/
def test_timedelta_to_seconds_assert (results : List Int) :
    Except AssertPayload Unit :=
  if equivCheck id results then Except.ok () else Except.error AssertPayload.bare

/-- `assert len({func(arg) for func, arg in libraries_isoweekday.values()})
== 1` in `test_isoweekday` (no message expression); the set members already
are the weekday numbers. -/
def test_isoweekday_assert (results : List Int) : Except AssertPayload Unit :=
  if equivCheck id results then Except.ok () else Except.error AssertPayload.bare

/-- `assert len({dt.day for dt in datetimes}) == 1` in
`test_find_next_saturday` (no message expression). -/
def test_find_next_saturday_assert (datetimes : List Instant) :
    Except AssertPayload Unit :=
  if equivCheck dayOfMonth datetimes then Except.ok ()
  else Except.error AssertPayload.bare

/-- The pass condition of `test_convert_dt_to_isoformat_string`:
`len({len(s) for s in iso_strings}) == 1`. -/
def isoformatStringsCheck (iso_strings : List String) : Bool :=
  equivCheck String.length iso_strings

/-- `assert len({len(s) for s in iso_strings}) == 1, {s: len(s) for s in
iso_strings}` in `test_convert_dt_to_isoformat_string`. -/
def test_convert_dt_to_isoformat_string_assert (iso_strings : List String) :
    Except AssertPayload Unit :=
  if isoformatStringsCheck iso_strings then Except.ok ()
  else Except.error (AssertPayload.stringLengthMapping
    (dictOfList (iso_strings.map (fun s => (s, s.length)))))

/-! ## The per-file library tables

One namespace per source file; the table entries appear in the order they
are written in that file.  Operations whose callables are not needed by any
claim are represented by their key lists alone. -/

namespace BenchmarkPy

/-- Keys of `libraries_now_utc` in `benchmark.py`. -/
def libraries_now_utc_keys : List String :=
  ["arrow", "dateutil", "pendulum", "python", "udatetime"]

/-- `libraries_now_utc` in `benchmark.py`. -/
def libraries_now_utc : List (String × (Instant → Instant)) :=
  [("arrow", arrow_utcnow),
   ("dateutil", dateutil_datetime_now_utc),
   ("pendulum", pendulum_now_utc),
   ("python", python_datetime_now_utc),
   ("udatetime", udatetime_utcnow)]

/-- Keys of `libraries_now_local` in `benchmark.py`. -/
def libraries_now_local_keys : List String :=
  ["arrow", "pendulum", "python", "udatetime"]

/-- `libraries_now_local` in `benchmark.py`. -/
def libraries_now_local : List (String × (Instant → Instant)) :=
  [("arrow", arrow_now),
   ("pendulum", pendulum_now),
   ("python", python_datetime_now),
   ("udatetime", udatetime_now)]

/-- `libraries_parse_utc_from_unix_timestamp` in `benchmark.py`. -/
def libraries_parse_utc_from_unix_timestamp : List (String × (Int → Instant)) :=
  [("arrow", arrow_get_timestamp),
   ("pendulum", pendulum_from_timestamp),
   ("python", python_utcfromtimestamp),
   ("udatetime", udatetime_utcfromtimestamp),
   ("pydantic", pydantic_validate_timestamp)]

/-- `libraries_parse_utc_from_iso_8601` in `benchmark.py`. -/
def libraries_parse_utc_from_iso_8601 : List (String × (String → Option ParsedDT)) :=
  [("arrow", arrow_get),
   ("pendulum", pendulum_parse),
   ("python", python_fromisoformat),
   ("udatetime", udatetime_from_string),
   ("pydantic", pydantic_validate_aware)]

/-- Keys of `libraries_parse_utc_from_iso_8601` in `benchmark.py`. -/
def libraries_parse_utc_from_iso_8601_keys : List String :=
  ["arrow", "pendulum", "python", "udatetime", "pydantic"]

/-- `libraries_parse_utc_from_rfc_3339` in `benchmark.py`. -/
def libraries_parse_utc_from_rfc_3339 : List (String × (String → Option ParsedDT)) :=
  [("arrow", arrow_get),
   ("pendulum", pendulum_parse),
   ("python", python_fromisoformat),
   ("udatetime", udatetime_from_string),
   ("pydantic", pydantic_validate_aware)]

/-- Keys of `libraries_parse_utc_from_rfc_3339` in `benchmark.py`. -/
def libraries_parse_utc_from_rfc_3339_keys : List String :=
  ["arrow", "pendulum", "python", "udatetime", "pydantic"]

/-- `libraries_shift_forward` in `benchmark.py`: each entry pairs the
callable (closed over `timedelta_kwargs`) with its own captured
`now()` instant. -/
def libraries_shift_forward (k : TimedeltaKwargs) (tA tD tPe tPy : Instant) :
    List (String × (Instant → Instant) × Instant) :=
  [("arrow", arrow_shift k, tA),
   ("dateutil", dateutil_add_relativedelta k, tD),
   ("pendulum", pendulum_add k, tPe),
   ("python", python_add_timedelta k, tPy)]

/-- `libraries_shift_backward` in `benchmark.py`, closed over
`timedelta_kwargs_negative`. -/
def libraries_shift_backward (kn : TimedeltaKwargs) (tA tD tPe tPy : Instant) :
    List (String × (Instant → Instant) × Instant) :=
  [("arrow", arrow_shift kn, tA),
   ("dateutil", dateutil_add_relativedelta kn, tD),
   ("pendulum", pendulum_add kn, tPe),
   ("python", python_add_timedelta kn, tPy)]

/-- Keys of `libraries_timedelta_to_seconds` in `benchmark.py`. -/
def libraries_timedelta_to_seconds_keys : List String := ["pendulum", "python"]

/-- `libraries_timedelta_to_seconds` in `benchmark.py`: each entry pairs the
`total_seconds` callable with the duration built from the drawn
`timedelta_kwargs`. -/
def libraries_timedelta_to_seconds (k : TimedeltaKwargs) :
    List (String × (Int → Int) × Int) :=
  [("pendulum", total_seconds_value, pendulum_duration k),
   ("python", total_seconds_value, python_timedelta_value k)]

/-- Keys of `libraries_isoweekday` in `benchmark.py`. -/
def libraries_isoweekday_keys : List String :=
  ["arrow", "pendulum", "python", "udatetime"]

/-- `libraries_isoweekday` in `benchmark.py`, each entry with its own
captured `now()` instant. -/
def libraries_isoweekday (tA tPe tPy tU : Instant) :
    List (String × (Instant → Int) × Instant) :=
  [("arrow", arrow_isoweekday, tA),
   ("pendulum", pendulum_day_of_week, tPe),
   ("python", python_isoweekday, tPy),
   ("udatetime", udatetime_isoweekday, tU)]

/-- `libraries_find_next_saturday` in `benchmark.py`, each entry with its own
captured `now()` instant. -/
def libraries_find_next_saturday (tA tD tPe tPy : Instant) :
    List (String × (Instant → Instant) × Instant) :=
  [("arrow", arrow_shift_weekday_saturday, tA),
   ("dateutil", dateutil_next_saturday, tD),
   ("pendulum", pendulum_next_saturday, tPe),
   ("python", python_next_saturday, tPy)]

/-- Keys of `libraries_convert_dt_to_isoformat_string` in `benchmark.py`. -/
def libraries_convert_dt_to_isoformat_string_keys : List String :=
  ["arrow", "pendulum", "python", "udatetime"]

/-- `libraries_convert_dt_to_isoformat_string` in `benchmark.py`, each entry
with its own captured `now()` instant. -/
def libraries_convert_dt_to_isoformat_string (tA tPe tPy tU : Instant) :
    List (String × (Instant → String) × Instant) :=
  [("arrow", arrow_isoformat, tA),
   ("pendulum", pendulum_isoformat, tPe),
   ("python", python_isoformat, tPy),
   ("udatetime", udatetime_to_string, tU)]

end BenchmarkPy

namespace TestParsePy

/-- `libraries_parse_utc_from_unix_timestamp` in `test_parse.py`. -/
def libraries_parse_utc_from_unix_timestamp : List (String × (Int → Instant)) :=
  [("arrow", arrow_get_timestamp),
   ("pendulum", pendulum_from_timestamp),
   ("python", python_utcfromtimestamp),
   ("udatetime", udatetime_utcfromtimestamp),
   ("pydantic", pydantic_validate_timestamp)]

/-- `libraries_parse_utc_from_iso_8601` in `test_parse.py`: unlike the table
of the same name in `benchmark.py`, it also registers `dateutil` and
`pandas`. -/
def libraries_parse_utc_from_iso_8601 : List (String × (String → Option ParsedDT)) :=
  [("arrow", arrow_get),
   ("dateutil", dateutil_isoparse),
   ("pendulum", pendulum_parse),
   ("python", python_fromisoformat),
   ("udatetime", udatetime_from_string),
   ("pydantic", pydantic_validate_aware),
   ("pandas", pandas_timestamp_parse)]

/-- Keys of `libraries_parse_utc_from_iso_8601` in `test_parse.py`. -/
def libraries_parse_utc_from_iso_8601_keys : List String :=
  ["arrow", "dateutil", "pendulum", "python", "udatetime", "pydantic", "pandas"]

/-- `libraries_parse_utc_from_rfc_3339` in `test_parse.py`: also registers
`pandas`, which `benchmark.py` omits. -/
def libraries_parse_utc_from_rfc_3339 : List (String × (String → Option ParsedDT)) :=
  [("arrow", arrow_get),
   ("pendulum", pendulum_parse),
   ("python", python_fromisoformat),
   ("udatetime", udatetime_from_string),
   ("pydantic", pydantic_validate_aware),
   ("pandas", pandas_timestamp_parse)]

/-- Keys of `libraries_parse_utc_from_rfc_3339` in `test_parse.py`. -/
def libraries_parse_utc_from_rfc_3339_keys : List String :=
  ["arrow", "pendulum", "python", "udatetime", "pydantic", "pandas"]

end TestParsePy

namespace TestManipulatePy

/-- Keys of `libraries_now_utc` in `test_manipulate.py`. -/
def libraries_now_utc_keys : List String :=
  ["arrow", "dateutil", "pendulum", "python", "udatetime"]

/-- `libraries_now_utc` in `test_manipulate.py` (the same literal as in
`benchmark.py`). -/
def libraries_now_utc : List (String × (Instant → Instant)) :=
  [("arrow", arrow_utcnow),
   ("dateutil", dateutil_datetime_now_utc),
   ("pendulum", pendulum_now_utc),
   ("python", python_datetime_now_utc),
   ("udatetime", udatetime_utcnow)]

/-- Keys of `libraries_now_local` in `test_manipulate.py`. -/
def libraries_now_local_keys : List String :=
  ["arrow", "pendulum", "python", "udatetime"]

/-- `libraries_now_local` in `test_manipulate.py` (the same literal as in
`benchmark.py`). -/
def libraries_now_local : List (String × (Instant → Instant)) :=
  [("arrow", arrow_now),
   ("pendulum", pendulum_now),
   ("python", python_datetime_now),
   ("udatetime", udatetime_now)]

/-- `libraries_shift_forward` in `test_manipulate.py` (the same literal as in
`benchmark.py`). -/
def libraries_shift_forward (k : TimedeltaKwargs) (tA tD tPe tPy : Instant) :
    List (String × (Instant → Instant) × Instant) :=
  [("arrow", arrow_shift k, tA),
   ("dateutil", dateutil_add_relativedelta k, tD),
   ("pendulum", pendulum_add k, tPe),
   ("python", python_add_timedelta k, tPy)]

/-- `libraries_shift_backward` in `test_manipulate.py`. -/
def libraries_shift_backward (kn : TimedeltaKwargs) (tA tD tPe tPy : Instant) :
    List (String × (Instant → Instant) × Instant) :=
  [("arrow", arrow_shift kn, tA),
   ("dateutil", dateutil_add_relativedelta kn, tD),
   ("pendulum", pendulum_add kn, tPe),
   ("python", python_add_timedelta kn, tPy)]

/-- Keys of `libraries_timedelta_to_seconds` in `test_manipulate.py`. -/
def libraries_timedelta_to_seconds_keys : List String := ["pendulum", "python"]

/-- `libraries_timedelta_to_seconds` in `test_manipulate.py` (the same
literal as in `benchmark.py`). -/
def libraries_timedelta_to_seconds (k : TimedeltaKwargs) :
    List (String × (Int → Int) × Int) :=
  [("pendulum", total_seconds_value, pendulum_duration k),
   ("python", total_seconds_value, python_timedelta_value k)]

/-- Keys of `libraries_isoweekday` in `test_manipulate.py`. -/
def libraries_isoweekday_keys : List String :=
  ["arrow", "pendulum", "python", "udatetime"]

/-- `libraries_isoweekday` in `test_manipulate.py` (the same literal as in
`benchmark.py`). -/
def libraries_isoweekday (tA tPe tPy tU : Instant) :
    List (String × (Instant → Int) × Instant) :=
  [("arrow", arrow_isoweekday, tA),
   ("pendulum", pendulum_day_of_week, tPe),
   ("python", python_isoweekday, tPy),
   ("udatetime", udatetime_isoweekday, tU)]

/-- `libraries_find_next_saturday` in `test_manipulate.py` (the same literal
as in `benchmark.py`). -/
def libraries_find_next_saturday (tA tD tPe tPy : Instant) :
    List (String × (Instant → Instant) × Instant) :=
  [("arrow", arrow_shift_weekday_saturday, tA),
   ("dateutil", dateutil_next_saturday, tD),
   ("pendulum", pendulum_next_saturday, tPe),
   ("python", python_next_saturday, tPy)]

end TestManipulatePy

namespace TestDumpPy

/-- Keys of `libraries_convert_dt_to_isoformat_string` in `test_dump.py`. -/
def libraries_convert_dt_to_isoformat_string_keys : List String :=
  ["arrow", "pendulum", "python", "udatetime"]

/-- `libraries_convert_dt_to_isoformat_string` in `test_dump.py` (the same
literal as in `benchmark.py`). -/
def libraries_convert_dt_to_isoformat_string (tA tPe tPy tU : Instant) :
    List (String × (Instant → String) × Instant) :=
  [("arrow", arrow_isoformat, tA),
   ("pendulum", pendulum_isoformat, tPe),
   ("python", python_isoformat, tPy),
   ("udatetime", udatetime_to_string, tU)]

end TestDumpPy

/-! ## Test-body embeddings used by the claims -/

/-- The per-library results whose day-of-month set `test_substract_timedelta`
asserts on: `{k: v[0](v[1]) for k, v in libraries_shift_forward.items()}` —
note the *forward* table. -/
def providers_datetimes (k : TimedeltaKwargs) (tA tD tPe tPy : Instant) :
    List (String × Instant) :=
  (BenchmarkPy.libraries_shift_forward k tA tD tPe tPy).map
    (fun e => (e.1, e.2.1 e.2.2))

/-- The assertion of `test_find_next_saturday`:
`assert len({dt.day for dt in datetimes}) == 1` over the results of applying
each entry's callable to its captured instant. -/
def test_find_next_saturday_check (tA tD tPe tPy : Instant) : Bool :=
  equivCheck dayOfMonth
    ((BenchmarkPy.libraries_find_next_saturday tA tD tPe tPy).map
      (fun e => e.2.1 e.2.2))

/-- `fake.unix_time()`, modelled against an explicit stream of pseudo-random
values: one call consumes exactly the head of the stream. -/
def fake_unix_time (rng : List Int) : Int × List Int := (rng.headD 0, rng.tail)

/-- Observable trace of one invocation of `test_parse_utc_from_timestamp`:
which argument every library's callable received in the equivalence check,
whether the assertion passed, and which callable/argument pair went to the
timing harness. -/
structure ParseTimestampRun where
  libraryArgs : List (String × Int)
  equivalencePassed : Bool
  benchLibrary : String
  benchArg : Int

/-- One invocation of `test_parse_utc_from_timestamp` (`test_parse.py`;
`benchmark.py` contains the identical body): draw `unix_time = fake.unix_time()`
once, feed that one value to every registered callable for the assertion and
to the benchmarked callable, and return the rest of the random stream. -/
def run_test_parse_utc_from_timestamp (rng : List Int) (library : String) :
    ParseTimestampRun × List Int :=
  let drawn := fake_unix_time rng
  let unix_time := drawn.1
  ({ libraryArgs := TestParsePy.libraries_parse_utc_from_unix_timestamp.map
       (fun e => (e.1, unix_time)),
     equivalencePassed := equivCheck dayOfMonth
       (TestParsePy.libraries_parse_utc_from_unix_timestamp.map
         (fun e => e.2 unix_time)),
     benchLibrary := library,
     benchArg := unix_time }, drawn.2)

/-- 2024-01-06T12:00:00Z, a Saturday: a concrete value the four `utcnow()`
captures in `libraries_find_next_saturday` take when the module is loaded on
a Saturday. -/
def saturdayInstant : Instant := 1704542400000000

/-! ## Helper lemmas -/

/-- A nonempty list all of whose elements equal `b` dedups to `[b]`. -/
theorem dedup_all_eq {β : Type} [DecidableEq β] (b : β) :
    ∀ l : List β, l ≠ [] → (∀ x ∈ l, x = b) → l.dedup = [b] := by
  intro l
  induction l with
  | nil => intro h; exact absurd rfl h
  | cons a l ih =>
    intro _ hall
    have ha : a = b := hall a (List.mem_cons_self a l)
    cases l with
    | nil => simp [ha]
    | cons c l2 =>
      have hc : c = b := hall c (by simp)
      have hmem : a ∈ c :: l2 := by
        rw [ha, ← hc]; exact List.mem_cons_self c l2
      rw [List.dedup_cons_of_mem hmem]
      exact ih (by simp) fun x hx => hall x (List.mem_cons_of_mem a hx)

/-- On a nonempty result list, the set-cardinality assertion holds exactly
when all projections agree. -/
theorem equivCheck_eq_true_iff {α β : Type} [DecidableEq β] (proj : α → β)
    (l : List α) (h : l ≠ []) :
    equivCheck proj l = true ↔ ∀ x ∈ l, ∀ y ∈ l, proj x = proj y := by
  unfold equivCheck
  rw [beq_iff_eq]
  constructor
  · intro h1 x hx y hy
    obtain ⟨b, hb⟩ := List.length_eq_one.mp h1
    have hxb : proj x = b := by
      have hx2 : proj x ∈ (l.map proj).dedup :=
        List.mem_dedup.mpr (List.mem_map_of_mem proj hx)
      rw [hb] at hx2
      simpa using hx2
    have hyb : proj y = b := by
      have hy2 : proj y ∈ (l.map proj).dedup :=
        List.mem_dedup.mpr (List.mem_map_of_mem proj hy)
      rw [hb] at hy2
      simpa using hy2
    rw [hxb, hyb]
  · intro hall
    obtain ⟨a, l2, rfl⟩ := List.exists_cons_of_ne_nil h
    rw [dedup_all_eq (proj a) _ (by simp)]
    · rfl
    · intro x hx
      obtain ⟨y, hy, rfl⟩ := List.mem_map.mp hx
      exact hall y hy a (List.mem_cons_self a l2)

/-- Cancellation of a duration with its equal-magnitude negation. -/
theorem shift_cancel (k : TimedeltaKwargs) (a : Instant) :
    a + timedeltaUs k + timedeltaUs (negKwargs k) = a := by
  simp [timedeltaUs, negKwargs]
  ring

/-- After an in-place overwrite of an existing key, lookup finds the new
pair. -/
theorem find_after_replace {α : Type} (key : String) (v : α) :
    ∀ d : List (String × α), d.any (fun p => p.1 == key) = true →
      (d.map (fun p => if p.1 == key then (key, v) else p)).find?
          (fun p => p.1 == key) = some (key, v) := by
  intro d
  induction d with
  | nil => intro h; simp at h
  | cons p d ih =>
    intro h
    by_cases hp : p.1 == key
    · simp [List.find?, hp]
    · have h2 : d.any (fun p => p.1 == key) = true := by
        simpa [List.any_cons, hp] using h
      simpa [List.find?, hp] using ih h2

/-! ## Claims -/

/-- C1: for an operation with at least two registered libraries, the
assertion `len({proj(dt) for dt in datetimes}) == 1` over the registered
libraries' results succeeds exactly when the projections of all the results
are equal. -/
theorem equiv_check_passes_iff_all_projections_equal {α β : Type}
    [DecidableEq β] (proj : α → β) (results : List α)
    (h2 : 2 ≤ results.length) :
    equivCheck proj results = true ↔
      ∀ x ∈ results, ∀ y ∈ results, proj x = proj y :=
  equivCheck_eq_true_iff proj results (by
    intro hnil
    rw [hnil] at h2
    simp at h2)

/-- C1 witness: the two-element instance with the day-of-month projection. -/
theorem equiv_check_passes_iff_all_projections_equal_witness :
    2 ≤ ([0, 3600000000] : List Instant).length ∧
      (equivCheck dayOfMonth ([0, 3600000000] : List Instant) = true ↔
        ∀ x ∈ ([0, 3600000000] : List Instant),
          ∀ y ∈ ([0, 3600000000] : List Instant), dayOfMonth x = dayOfMonth y) :=
  ⟨by decide,
   equiv_check_passes_iff_all_projections_equal dayOfMonth [0, 3600000000] (by decide)⟩

/-- C2: parsing the fixed literal `"1996-12-19T16:39:57-08:00"` with every
library registered for the parse-from-RFC-3339 operation — the five entries
of `benchmark.py` and the six entries (with pandas) of `test_parse.py` —
yields a datetime whose `.day` is 19, the literal's day (the libraries keep
the parsed offset rather than renormalising to UTC), so the cardinality-1
day-of-month assertion passes for this input. -/
theorem rfc3339_literal_parses_to_day_19 :
    BenchmarkPy.libraries_parse_utc_from_rfc_3339.map
        (fun e => parsedDay (e.2 "1996-12-19T16:39:57-08:00"))
      = List.replicate 5 (some 19)
    ∧ TestParsePy.libraries_parse_utc_from_rfc_3339.map
        (fun e => parsedDay (e.2 "1996-12-19T16:39:57-08:00"))
      = List.replicate 6 (some 19)
    ∧ equivCheck parsedDay
        (BenchmarkPy.libraries_parse_utc_from_rfc_3339.map
          (fun e => e.2 "1996-12-19T16:39:57-08:00")) = true
    ∧ equivCheck parsedDay
        (TestParsePy.libraries_parse_utc_from_rfc_3339.map
          (fun e => e.2 "1996-12-19T16:39:57-08:00")) = true := by
  refine ⟨by decide, by decide, by decide, by decide⟩

/-- C5: the format-to-isoformat-string check compares only string lengths —
on any nonempty result list it passes exactly when all lengths agree, and it
passes on a concrete pair of strings that differ character-for-character,
so exact string equality is never required. -/
theorem isoformat_check_compares_only_lengths :
    (∀ ss : List String, ss ≠ [] →
        (isoformatStringsCheck ss = true ↔
          ∀ s1 ∈ ss, ∀ s2 ∈ ss, s1.length = s2.length))
    ∧ isoformatStringsCheck
        ["2024-01-06T12:00:00+00:00", "2024-01-06T12:00:00-08:00"] = true
    ∧ ("2024-01-06T12:00:00+00:00" : String) ≠ "2024-01-06T12:00:00-08:00" :=
  ⟨fun ss h => equivCheck_eq_true_iff String.length ss h, by decide, by decide⟩

/-- C5 witness: the length-only equivalence instantiated at a concrete list. -/
theorem isoformat_check_compares_only_lengths_witness :
    isoformatStringsCheck ["ab", "cd"] = true ↔
      ∀ s1 ∈ ["ab", "cd"], ∀ s2 ∈ ["ab", "cd"], s1.length = s2.length :=
  isoformat_check_compares_only_lengths.1 ["ab", "cd"] (by decide)

/-- C3: for every library registered for both the forward and the backward
shift direction, shifting a UTC instant forward by the drawn bounded duration
(components in `400..500`) and then applying the equal-magnitude negative
shift returns to an instant with the original day-of-month. -/
theorem shift_roundtrip_preserves_day_of_month (k : TimedeltaKwargs)
    (t : Instant) (name : String) (f g : Instant → Instant)
    (_hk : kwargsInRange k)
    (hf : (name, f) ∈ shiftForwardFuncs k)
    (hg : (name, g) ∈ shiftBackwardFuncs (negKwargs k)) :
    dayOfMonth (g (f t)) = dayOfMonth t := by
  simp only [shiftForwardFuncs, shiftBackwardFuncs, List.mem_cons,
    List.not_mem_nil, or_false, Prod.mk.injEq] at hf hg
  obtain ⟨rfl, rfl⟩ | ⟨rfl, rfl⟩ | ⟨rfl, rfl⟩ | ⟨rfl, rfl⟩ := hf <;>
    obtain ⟨h2, rfl⟩ | ⟨h2, rfl⟩ | ⟨h2, rfl⟩ | ⟨h2, rfl⟩ := hg <;>
      first
        | exact absurd h2 (by decide)
        | (simp only [arrow_shift, dateutil_add_relativedelta, pendulum_add,
             python_add_timedelta]
           rw [shift_cancel])

/-- C3 witness: the python entry, duration `450` in every component, start
instant the epoch. -/
theorem shift_roundtrip_preserves_day_of_month_witness :
    dayOfMonth (python_add_timedelta (negKwargs ⟨450, 450, 450, 450⟩)
        (python_add_timedelta ⟨450, 450, 450, 450⟩ 0)) = dayOfMonth 0 :=
  shift_roundtrip_preserves_day_of_month ⟨450, 450, 450, 450⟩ 0 "python"
    (python_add_timedelta ⟨450, 450, 450, 450⟩)
    (python_add_timedelta (negKwargs ⟨450, 450, 450, 450⟩))
    (by decide)
    (by simp [shiftForwardFuncs])
    (by simp [shiftBackwardFuncs])

/-- C4 counterexample: the parse-from-ISO-8601 tables of `benchmark.py` and
`test_parse.py` do not register the same set of library identifiers —
`test_parse.py` registers `dateutil`, `benchmark.py` does not. -/
theorem iso8601_tables_register_different_libraries :
    "dateutil" ∈ TestParsePy.libraries_parse_utc_from_iso_8601_keys
    ∧ "dateutil" ∉ BenchmarkPy.libraries_parse_utc_from_iso_8601_keys := by
  decide

/-- C4 amended: every operation table defined both in `benchmark.py` and in a
file under `src/benchmark/` registers the same libraries with the same
callables — the two tables are equal entry for entry — except the
parse-from-ISO-8601 and parse-from-RFC-3339 tables, where `test_parse.py`
registers a strict superset (`dateutil`/`pandas` extra); on the shared
identifiers of those two tables the callables agree as well. -/
theorem duplicated_tables_agree_except_parse_supersets :
    BenchmarkPy.libraries_now_utc = TestManipulatePy.libraries_now_utc
    ∧ BenchmarkPy.libraries_now_local = TestManipulatePy.libraries_now_local
    ∧ BenchmarkPy.libraries_parse_utc_from_unix_timestamp
        = TestParsePy.libraries_parse_utc_from_unix_timestamp
    ∧ BenchmarkPy.libraries_shift_forward = TestManipulatePy.libraries_shift_forward
    ∧ BenchmarkPy.libraries_shift_backward = TestManipulatePy.libraries_shift_backward
    ∧ BenchmarkPy.libraries_timedelta_to_seconds
        = TestManipulatePy.libraries_timedelta_to_seconds
    ∧ BenchmarkPy.libraries_isoweekday = TestManipulatePy.libraries_isoweekday
    ∧ BenchmarkPy.libraries_find_next_saturday
        = TestManipulatePy.libraries_find_next_saturday
    ∧ BenchmarkPy.libraries_convert_dt_to_isoformat_string
        = TestDumpPy.libraries_convert_dt_to_isoformat_string
    ∧ BenchmarkPy.libraries_now_utc_keys = BenchmarkPy.libraries_now_utc.map Prod.fst
    ∧ BenchmarkPy.libraries_now_local_keys
        = BenchmarkPy.libraries_now_local.map Prod.fst
    ∧ BenchmarkPy.libraries_parse_utc_from_iso_8601_keys
        = BenchmarkPy.libraries_parse_utc_from_iso_8601.map Prod.fst
    ∧ TestParsePy.libraries_parse_utc_from_iso_8601_keys
        = TestParsePy.libraries_parse_utc_from_iso_8601.map Prod.fst
    ∧ (BenchmarkPy.libraries_parse_utc_from_iso_8601_keys.all
        (fun key => TestParsePy.libraries_parse_utc_from_iso_8601_keys.contains key))
        = true
    ∧ TestParsePy.libraries_parse_utc_from_iso_8601.filter
        (fun e => BenchmarkPy.libraries_parse_utc_from_iso_8601_keys.contains e.1)
      = BenchmarkPy.libraries_parse_utc_from_iso_8601
    ∧ (BenchmarkPy.libraries_parse_utc_from_rfc_3339_keys.all
        (fun key => TestParsePy.libraries_parse_utc_from_rfc_3339_keys.contains key))
        = true
    ∧ TestParsePy.libraries_parse_utc_from_rfc_3339.filter
        (fun e => BenchmarkPy.libraries_parse_utc_from_rfc_3339_keys.contains e.1)
      = BenchmarkPy.libraries_parse_utc_from_rfc_3339
    ∧ ("pandas" ∈ TestParsePy.libraries_parse_utc_from_rfc_3339_keys
        ∧ "pandas" ∉ BenchmarkPy.libraries_parse_utc_from_rfc_3339_keys) := by
  refine ⟨rfl, rfl, rfl, rfl, rfl, rfl, rfl, rfl, rfl, rfl, rfl, rfl, rfl,
    by decide, by rfl, by decide, by rfl, by decide⟩

/-- C6: on a Saturday start (2024-01-06T12:00:00Z for all four captured
`utcnow()` instants), pendulum's `next(SATURDAY)` lands on the following
Saturday (day 13) while arrow, dateutil and python stay on the same day
(day 6), so the day-of-month set has two elements and the
`test_find_next_saturday` assertion fails — contradicting both the claim and
the test's own `assert`. -/
theorem find_next_saturday_check_fails_on_saturday :
    pyWeekday (epochDay saturdayInstant) = 5
    ∧ dayOfMonth (arrow_shift_weekday_saturday saturdayInstant) = 6
    ∧ dayOfMonth (dateutil_next_saturday saturdayInstant) = 6
    ∧ dayOfMonth (python_next_saturday saturdayInstant) = 6
    ∧ dayOfMonth (pendulum_next_saturday saturdayInstant) = 13
    ∧ test_find_next_saturday_check saturdayInstant saturdayInstant
        saturdayInstant saturdayInstant = false := by
  decide

/-- C7 counterexample: building a registry dict literal with a duplicated
`(operation, library)` key succeeds and silently replaces the earlier entry —
no configuration error is raised. -/
theorem duplicate_key_dict_literal_silently_replaces :
    dictOfList [("arrow", 1), ("arrow", 2)] = [("arrow", 2)] := by decide

/-- C7 amended: registering a second entry for an existing key in a registry
dict silently replaces the earlier entry's value (Python dict semantics);
the construction is total and never fails. -/
theorem dict_duplicate_registration_replaces {α : Type}
    (d : List (String × α)) (key : String) (v : α)
    (h : d.any (fun p => p.1 == key) = true) :
    dictLookup (dictInsert d key v) key = some v := by
  unfold dictInsert dictLookup
  rw [if_pos h, find_after_replace key v d h]
  rfl

/-- C7 witness: overwriting the `arrow` entry. -/
theorem dict_duplicate_registration_replaces_witness :
    dictLookup (dictInsert [("arrow", 1)] "arrow" 2) "arrow" = some 2 :=
  dict_duplicate_registration_replaces [("arrow", 1)] "arrow" 2 (by decide)

/-- C8 counterexample: the failing `test_now_utc` assertion carries no
payload at all — in particular not a mapping from library id to projected
value. -/
theorem now_utc_assert_failure_carries_no_payload :
    test_now_utc_assert [0, 3600000000] = Except.error AssertPayload.bare := by
  rfl

/-- C8 amended: for every assertion in the repository, the failure payload
is exactly what the `assert` statement writes after the comma — and no
assertion attaches a library-id-to-projected-value mapping.  The
`test_now_utc`, `test_now_local`, `test_parse_utc_from_timestamp`,
`test_parse_utc_from_iso_8601`, `test_parse_utc_from_rfc_3339`,
`test_parse_utc_from_iso_8601_duration`, `test_timedelta_to_seconds`,
`test_isoweekday` and `test_find_next_saturday` asserts are bare (no
payload); `test_add_timedelta` attaches the raw per-library result list;
`test_substract_timedelta` attaches the mapping from library id to raw
(unprojected) result; `test_convert_dt_to_isoformat_string` attaches a
mapping from each output string to its length.  None of these payload shapes
is a projected-value mapping. -/
theorem assert_failure_payloads_by_operation :
    (∀ dts : List Instant, equivCheck hourOfDay dts = false →
        test_now_utc_assert dts = Except.error AssertPayload.bare)
    ∧ (∀ dts : List Instant, equivCheck hourOfDay dts = false →
        test_now_local_assert dts = Except.error AssertPayload.bare)
    ∧ (∀ dts : List Instant, equivCheck dayOfMonth dts = false →
        test_parse_utc_from_timestamp_assert dts = Except.error AssertPayload.bare)
    ∧ (∀ dts : List (Option ParsedDT), equivCheck parsedDay dts = false →
        test_parse_utc_from_iso_8601_assert dts = Except.error AssertPayload.bare)
    ∧ (∀ dts : List (Option ParsedDT), equivCheck parsedDay dts = false →
        test_parse_utc_from_rfc_3339_assert dts = Except.error AssertPayload.bare)
    ∧ (∀ ds : List Int, equivCheck total_seconds_value ds = false →
        test_parse_utc_from_iso_8601_duration_assert ds
          = Except.error AssertPayload.bare)
    ∧ (∀ rs : List Int, equivCheck id rs = false →
        test_timedelta_to_seconds_assert rs = Except.error AssertPayload.bare)
    ∧ (∀ rs : List Int, equivCheck id rs = false →
        test_isoweekday_assert rs = Except.error AssertPayload.bare)
    ∧ (∀ dts : List Instant, equivCheck dayOfMonth dts = false →
        test_find_next_saturday_assert dts = Except.error AssertPayload.bare)
    ∧ (∀ dts : List Instant, equivCheck dayOfMonth dts = false →
        test_add_timedelta_assert dts
          = Except.error (AssertPayload.rawResults dts))
    ∧ (∀ ps : List (String × Instant),
        equivCheck dayOfMonth (ps.map Prod.snd) = false →
        test_substract_timedelta_assert ps
          = Except.error (AssertPayload.rawMapping ps))
    ∧ (∀ ss : List String, isoformatStringsCheck ss = false →
        test_convert_dt_to_isoformat_string_assert ss
          = Except.error (AssertPayload.stringLengthMapping
              (dictOfList (ss.map (fun s => (s, s.length))))))
    ∧ (∀ (rs : List Instant) (mp : List (String × Instant))
        (sl : List (String × Nat)) (m : List (String × Int)),
        AssertPayload.bare ≠ AssertPayload.projectedMapping m
        ∧ AssertPayload.rawResults rs ≠ AssertPayload.projectedMapping m
        ∧ AssertPayload.rawMapping mp ≠ AssertPayload.projectedMapping m
        ∧ AssertPayload.stringLengthMapping sl
            ≠ AssertPayload.projectedMapping m) := by
  refine ⟨?_, ?_, ?_, ?_, ?_, ?_, ?_, ?_, ?_, ?_, ?_, ?_, ?_⟩
  case _ => intro x h; simp [test_now_utc_assert, h]
  case _ => intro x h; simp [test_now_local_assert, h]
  case _ => intro x h; simp [test_parse_utc_from_timestamp_assert, h]
  case _ => intro x h; simp [test_parse_utc_from_iso_8601_assert, h]
  case _ => intro x h; simp [test_parse_utc_from_rfc_3339_assert, h]
  case _ => intro x h; simp [test_parse_utc_from_iso_8601_duration_assert, h]
  case _ => intro x h; simp [test_timedelta_to_seconds_assert, h]
  case _ => intro x h; simp [test_isoweekday_assert, h]
  case _ => intro x h; simp [test_find_next_saturday_assert, h]
  case _ => intro x h; simp [test_add_timedelta_assert, h]
  case _ => intro x h; simp [test_substract_timedelta_assert, h]
  case _ => intro x h; simp [test_convert_dt_to_isoformat_string_assert, h]
  case _ => intro rs mp sl m; refine ⟨by simp, by simp, by simp, by simp⟩

/-- C8 witness: each assert shape instantiated at a concrete failing input,
and the constructor-distinctness conjunct at concrete payloads. -/
theorem assert_failure_payloads_witness :
    test_now_utc_assert [0, 3600000000] = Except.error AssertPayload.bare
    ∧ test_now_local_assert [0, 3600000000] = Except.error AssertPayload.bare
    ∧ test_parse_utc_from_timestamp_assert [0, 86400000000]
        = Except.error AssertPayload.bare
    ∧ test_parse_utc_from_iso_8601_assert
        [some ⟨1996, 12, 19, 0, 0, 0, 0, 0⟩, some ⟨1996, 12, 20, 0, 0, 0, 0, 0⟩]
        = Except.error AssertPayload.bare
    ∧ test_parse_utc_from_rfc_3339_assert
        [some ⟨1996, 12, 19, 16, 39, 57, 0, -480⟩, some ⟨1996, 12, 20, 0, 39, 57, 0, 0⟩]
        = Except.error AssertPayload.bare
    ∧ test_parse_utc_from_iso_8601_duration_assert [0, 1000000]
        = Except.error AssertPayload.bare
    ∧ test_timedelta_to_seconds_assert [0, 1] = Except.error AssertPayload.bare
    ∧ test_isoweekday_assert [1, 2] = Except.error AssertPayload.bare
    ∧ test_find_next_saturday_assert [0, 86400000000]
        = Except.error AssertPayload.bare
    ∧ test_add_timedelta_assert [0, 86400000000]
        = Except.error (AssertPayload.rawResults [0, 86400000000])
    ∧ test_substract_timedelta_assert [("arrow", 0), ("python", 86400000000)]
        = Except.error (AssertPayload.rawMapping
            [("arrow", 0), ("python", 86400000000)])
    ∧ test_convert_dt_to_isoformat_string_assert ["a", "bb"]
        = Except.error (AssertPayload.stringLengthMapping
            (dictOfList (["a", "bb"].map (fun s => (s, s.length)))))
    ∧ (AssertPayload.bare ≠ AssertPayload.projectedMapping [("arrow", 1)]
        ∧ AssertPayload.rawResults [0] ≠ AssertPayload.projectedMapping [("arrow", 1)]
        ∧ AssertPayload.rawMapping [("arrow", 0)]
            ≠ AssertPayload.projectedMapping [("arrow", 1)]
        ∧ AssertPayload.stringLengthMapping [("a", 1)]
            ≠ AssertPayload.projectedMapping [("arrow", 1)]) :=
  ⟨assert_failure_payloads_by_operation.1 [0, 3600000000] (by decide),
   assert_failure_payloads_by_operation.2.1 [0, 3600000000] (by decide),
   assert_failure_payloads_by_operation.2.2.1 [0, 86400000000] (by decide),
   assert_failure_payloads_by_operation.2.2.2.1
     [some ⟨1996, 12, 19, 0, 0, 0, 0, 0⟩, some ⟨1996, 12, 20, 0, 0, 0, 0, 0⟩]
     (by decide),
   assert_failure_payloads_by_operation.2.2.2.2.1
     [some ⟨1996, 12, 19, 16, 39, 57, 0, -480⟩, some ⟨1996, 12, 20, 0, 39, 57, 0, 0⟩]
     (by decide),
   assert_failure_payloads_by_operation.2.2.2.2.2.1 [0, 1000000] (by decide),
   assert_failure_payloads_by_operation.2.2.2.2.2.2.1 [0, 1] (by decide),
   assert_failure_payloads_by_operation.2.2.2.2.2.2.2.1 [1, 2] (by decide),
   assert_failure_payloads_by_operation.2.2.2.2.2.2.2.2.1 [0, 86400000000]
     (by decide),
   assert_failure_payloads_by_operation.2.2.2.2.2.2.2.2.2.1 [0, 86400000000]
     (by decide),
   assert_failure_payloads_by_operation.2.2.2.2.2.2.2.2.2.2.1
     [("arrow", 0), ("python", 86400000000)] (by decide),
   assert_failure_payloads_by_operation.2.2.2.2.2.2.2.2.2.2.2.1 ["a", "bb"]
     (by decide),
   assert_failure_payloads_by_operation.2.2.2.2.2.2.2.2.2.2.2.2 [0]
     [("arrow", 0)] [("a", 1)] [("arrow", 1)]⟩

/-- C9: one invocation of `test_parse_utc_from_timestamp` draws exactly one
random timestamp (one element of the pseudo-random stream), passes that same
value to every registered library's callable in the equivalence check, and
passes the same value to the timed benchmark call. -/
theorem parse_timestamp_single_draw_shared_input (rng : List Int)
    (library : String) (h : rng ≠ []) :
    (run_test_parse_utc_from_timestamp rng library).2 = rng.tail
    ∧ rng.length = (run_test_parse_utc_from_timestamp rng library).2.length + 1
    ∧ (∀ p ∈ (run_test_parse_utc_from_timestamp rng library).1.libraryArgs,
        p.2 = rng.headD 0)
    ∧ (run_test_parse_utc_from_timestamp rng library).1.benchArg = rng.headD 0 := by
  obtain ⟨a, rng2, rfl⟩ := List.exists_cons_of_ne_nil h
  refine ⟨rfl, by simp [run_test_parse_utc_from_timestamp, fake_unix_time], ?_, rfl⟩
  intro p hp
  simp only [run_test_parse_utc_from_timestamp, fake_unix_time,
    List.mem_map] at hp
  obtain ⟨e, -, rfl⟩ := hp
  rfl

/-- C9 witness: a one-element random stream. -/
theorem parse_timestamp_single_draw_shared_input_witness :
    (run_test_parse_utc_from_timestamp [850320000] "python").2
        = ([850320000] : List Int).tail
    ∧ ([850320000] : List Int).length
        = (run_test_parse_utc_from_timestamp [850320000] "python").2.length + 1
    ∧ (∀ p ∈ (run_test_parse_utc_from_timestamp [850320000] "python").1.libraryArgs,
        p.2 = ([850320000] : List Int).headD 0)
    ∧ (run_test_parse_utc_from_timestamp [850320000] "python").1.benchArg
        = ([850320000] : List Int).headD 0 :=
  parse_timestamp_single_draw_shared_input [850320000] "python" (by decide)

/-- C10: the collection `test_substract_timedelta` asserts on is exactly the
application of the *forward*-shift table, and (whenever the two drawn
durations differ in total span) it is not the collection the
backward-shift callables would produce, which is never equivalence-checked. -/
theorem substract_check_evaluates_forward_table (k kn : TimedeltaKwargs)
    (tA tD tPe tPy : Instant) (h : timedeltaUs k ≠ timedeltaUs kn) :
    providers_datetimes k tA tD tPe tPy
        = (BenchmarkPy.libraries_shift_forward k tA tD tPe tPy).map
            (fun e => (e.1, e.2.1 e.2.2))
    ∧ providers_datetimes k tA tD tPe tPy
        ≠ (BenchmarkPy.libraries_shift_backward kn tA tD tPe tPy).map
            (fun e => (e.1, e.2.1 e.2.2)) := by
  refine ⟨rfl, fun heq => h ?_⟩
  simp only [providers_datetimes, BenchmarkPy.libraries_shift_forward,
    BenchmarkPy.libraries_shift_backward, List.map_cons, List.map_nil,
    arrow_shift, dateutil_add_relativedelta, pendulum_add,
    python_add_timedelta, List.cons.injEq, Prod.mk.injEq] at heq
  exact add_left_cancel heq.1.2

/-- C10 witness: the positive duration against its negation. -/
theorem substract_check_evaluates_forward_table_witness :
    providers_datetimes ⟨450, 450, 450, 450⟩ 0 0 0 0
        = (BenchmarkPy.libraries_shift_forward ⟨450, 450, 450, 450⟩ 0 0 0 0).map
            (fun e => (e.1, e.2.1 e.2.2))
    ∧ providers_datetimes ⟨450, 450, 450, 450⟩ 0 0 0 0
        ≠ (BenchmarkPy.libraries_shift_backward
              (negKwargs ⟨450, 450, 450, 450⟩) 0 0 0 0).map
            (fun e => (e.1, e.2.1 e.2.2)) :=
  substract_check_evaluates_forward_table ⟨450, 450, 450, 450⟩
    (negKwargs ⟨450, 450, 450, 450⟩) 0 0 0 0 (by decide)
